import Mathlib

/-!
Shallow embedding of the delegated-rewards attestation program.

The repository has two executables:
 - the guest (`methods/guest/src/bin/delegated_rewards.rs`), the verified
   replay pass: it reads chain state through Steel `Contract::call`, checks
   the proposal, the block pinning, the voting token, the direct and the
   delegated vote, and commits an ABI-encoded `Journal` when the claimant
   is eligible;
 - the host (`apps/src/bin/publisher.rs`), the recording pass: it preflights
   the contract calls so that the evidence exists for the replay.

Both are embedded as pure functions over an abstract `ChainState` (the
pinned snapshot). Each external contract call becomes an `ECall` event in
an emitted trace, so that call-sequence claims are statements about lists.
The guest's `assert!` failures become the typed errors of the design's
error taxonomy (`ProposalNotFound`, `BlockMismatch`, `InvalidVotingToken`,
`NotEligible`); `env::commit_slice` of the journal becomes an
`Except.ok` result carrying the `Journal` record.
-/

namespace DelegatedRewards

/-- Account / contract addresses; the zero sentinel of the source's
`Address::ZERO` is the natural number `0`. -/
abbrev Address := Nat

/-- The pinned snapshot of ledger state that both passes read.
`blockNumber` is `env.header().number`; `commitment` is the opaque Steel
commitment; the remaining fields are the return values of the contract
views `proposalExists`, `proposalEndBlock`, `votingToken`, `votedAt`,
`delegates`, `balanceOf` and `totalSupply` at that block. -/
structure ChainState where
  blockNumber : Nat
  commitment : Nat
  proposalExists : Nat → Bool
  proposalEndBlock : Nat → Nat
  votingToken : Address
  votedAt : Nat → Address → Nat
  delegates : Address → Address
  balanceOf : Address → Nat
  totalSupply : Nat

/-- One external contract call: the constructor is the called function's
signature, the first argument is the target contract address, the rest are
the call's arguments. Two calls are the same element of the recorded
sequence exactly when target, signature and arguments all agree. -/
inductive ECall where
  | proposalExists : Address → Nat → ECall
  | proposalEndBlock : Address → Nat → ECall
  | votingToken : Address → ECall
  | votedAt : Address → Nat → Address → ECall
  | delegates : Address → Address → ECall
  | balanceOf : Address → Address → ECall
  | totalSupply : Address → ECall
  deriving DecidableEq, Repr

/-- The Resolver-level failures of the design's error taxonomy that the
guest can hit (each is an `assert!` in the source). -/
inductive RError where
  | ProposalNotFound
  | BlockMismatch
  | InvalidVotingToken
  | NotEligible
  deriving DecidableEq, Repr

/-- The ABI journal struct committed by the guest (`sol! { struct Journal ... }`). -/
structure Journal where
  commitment : Nat
  proposalId : Nat
  proposalEnd : Nat
  voted : Bool
  delegate : Address
  claimant : Address
  votingPower : Nat
  totalSupply : Nat
  votingToken : Address
  governance : Address
  deriving DecidableEq, Repr

/-- The guest `main` of `delegated_rewards.rs`, as a pure function from the
snapshot and the three inputs (`proposal_id`, `claimant`,
`proposal_contract`) to the sequence of external calls it issues and its
outcome. The source's control flow, with the two `mut` variables `voted`
and `delegate_address` resolved per branch:

 * `assert!(proposal_exists)` — else `ProposalNotFound`;
 * `assert!(proposal_end_block == U256::from(block_number))` — else
   `BlockMismatch`;
 * `assert!(voting_token_address != address_zero)` — else
   `InvalidVotingToken`;
 * `voted_directly = voted_block > 0 && voted_block < block_number`; when
   it holds the delegation block is skipped, `delegate_address` stays zero;
 * otherwise `delegates(claimant)` is read; a zero delegate leaves
   `voted = false`; a non-zero delegate's `votedAt` is read and bound
   checked the same way;
 * `assert!(voted)` — else `NotEligible`; then `balanceOf(claimant)` and
   `totalSupply()` are read and the journal is committed. -/
def guestRun (s : ChainState) (pid : Nat) (c : Address) (pc : Address) :
    List ECall × Except RError Journal :=
  if ¬ s.proposalExists pid = true then
    ([ECall.proposalExists pc pid], Except.error RError.ProposalNotFound)
  else if ¬ s.proposalEndBlock pid = s.blockNumber then
    ([ECall.proposalExists pc pid, ECall.proposalEndBlock pc pid],
     Except.error RError.BlockMismatch)
  else if s.votingToken = 0 then
    ([ECall.proposalExists pc pid, ECall.proposalEndBlock pc pid,
      ECall.votingToken pc],
     Except.error RError.InvalidVotingToken)
  else if 0 < s.votedAt pid c ∧ s.votedAt pid c < s.blockNumber then
    ([ECall.proposalExists pc pid, ECall.proposalEndBlock pc pid,
      ECall.votingToken pc, ECall.votedAt pc pid c,
      ECall.balanceOf s.votingToken c, ECall.totalSupply s.votingToken],
     Except.ok
       { commitment := s.commitment, proposalId := pid,
         proposalEnd := s.proposalEndBlock pid, voted := true, delegate := 0,
         claimant := c, votingPower := s.balanceOf c,
         totalSupply := s.totalSupply, votingToken := s.votingToken,
         governance := pc })
  else if s.delegates c = 0 then
    ([ECall.proposalExists pc pid, ECall.proposalEndBlock pc pid,
      ECall.votingToken pc, ECall.votedAt pc pid c,
      ECall.delegates s.votingToken c],
     Except.error RError.NotEligible)
  else if 0 < s.votedAt pid (s.delegates c) ∧
      s.votedAt pid (s.delegates c) < s.blockNumber then
    ([ECall.proposalExists pc pid, ECall.proposalEndBlock pc pid,
      ECall.votingToken pc, ECall.votedAt pc pid c,
      ECall.delegates s.votingToken c, ECall.votedAt pc pid (s.delegates c),
      ECall.balanceOf s.votingToken c, ECall.totalSupply s.votingToken],
     Except.ok
       { commitment := s.commitment, proposalId := pid,
         proposalEnd := s.proposalEndBlock pid, voted := true,
         delegate := s.delegates c, claimant := c,
         votingPower := s.balanceOf c, totalSupply := s.totalSupply,
         votingToken := s.votingToken, governance := pc })
  else
    ([ECall.proposalExists pc pid, ECall.proposalEndBlock pc pid,
      ECall.votingToken pc, ECall.votedAt pc pid c,
      ECall.delegates s.votingToken c, ECall.votedAt pc pid (s.delegates c)],
     Except.error RError.NotEligible)

/-- The recording pass of `publisher.rs` `main`, restricted to the preflight
contract calls it issues (the surrounding proving and transaction code is
outside the Resolver). The Boolean result is `true` when the preflight
sequence completes and `false` when the host aborts at its
`assert!(voting_token_address != address_zero)` — its only Resolver-level
check: the host ignores the `proposalExists` and `proposalEndBlock` return
values, its direct-vote test is `voted_block > U256::from(0)` with no upper
bound, and its totalSupply preflight is written as a second
`balanceOf(claimant)` call (the source comments this as a mistake). -/
def hostRun (s : ChainState) (pid : Nat) (c : Address) (pc : Address) :
    List ECall × Bool :=
  if s.votingToken = 0 then
    ([ECall.proposalExists pc pid, ECall.proposalEndBlock pc pid,
      ECall.votingToken pc], false)
  else if 0 < s.votedAt pid c then
    ([ECall.proposalExists pc pid, ECall.proposalEndBlock pc pid,
      ECall.votingToken pc, ECall.votedAt pc pid c,
      ECall.balanceOf s.votingToken c, ECall.balanceOf s.votingToken c], true)
  else if s.delegates c = 0 then
    ([ECall.proposalExists pc pid, ECall.proposalEndBlock pc pid,
      ECall.votingToken pc, ECall.votedAt pc pid c,
      ECall.delegates s.votingToken c,
      ECall.balanceOf s.votingToken c, ECall.balanceOf s.votingToken c], true)
  else
    ([ECall.proposalExists pc pid, ECall.proposalEndBlock pc pid,
      ECall.votingToken pc, ECall.votedAt pc pid c,
      ECall.delegates s.votingToken c, ECall.votedAt pc pid (s.delegates c),
      ECall.balanceOf s.votingToken c, ECall.balanceOf s.votingToken c], true)

/-! Concrete snapshots used as witnesses and counterexamples. In all of
them the proposal contract is address `9`, the voting token address `7`,
the claimant address `5`, an eventual delegate address `3`, and proposal
`1` exists with end block `100`. -/

/-- Snapshot where claimant `5` voted directly at block `50` (in bounds for
end block `100`) while also having an active delegation to `3`. -/
def exDirect : ChainState :=
  { blockNumber := 100, commitment := 11,
    proposalExists := fun pid => pid == 1,
    proposalEndBlock := fun _ => 100,
    votingToken := 7,
    votedAt := fun _ v => if v = 5 then 50 else 0,
    delegates := fun _ => 3,
    balanceOf := fun a => if a = 5 then 40 else 0,
    totalSupply := 1000 }

/-- Snapshot where claimant `5` has a vote recorded exactly at the end
block `100` (out of bounds for the guest, in bounds for the host's
lower-bound-only test) and a delegation to `3`, who voted at block `90`. -/
def exBoundary : ChainState :=
  { blockNumber := 100, commitment := 11,
    proposalExists := fun pid => pid == 1,
    proposalEndBlock := fun _ => 100,
    votingToken := 7,
    votedAt := fun _ v => if v = 5 then 100 else if v = 3 then 90 else 0,
    delegates := fun _ => 3,
    balanceOf := fun a => if a = 5 then 40 else 0,
    totalSupply := 1000 }

/-- Snapshot where claimant `5` never voted and delegated to `3`, who voted
at block `90 < 100`. -/
def exDelegated : ChainState :=
  { blockNumber := 100, commitment := 11,
    proposalExists := fun pid => pid == 1,
    proposalEndBlock := fun _ => 100,
    votingToken := 7,
    votedAt := fun _ v => if v = 3 then 90 else 0,
    delegates := fun a => if a = 5 then 3 else 0,
    balanceOf := fun a => if a = 5 then 40 else 0,
    totalSupply := 1000 }

/-- Snapshot where claimant `5` never voted and has no delegation. -/
def exNoDelegate : ChainState :=
  { blockNumber := 100, commitment := 11,
    proposalExists := fun pid => pid == 1,
    proposalEndBlock := fun _ => 100,
    votingToken := 7,
    votedAt := fun _ _ => 0,
    delegates := fun _ => 0,
    balanceOf := fun a => if a = 5 then 40 else 0,
    totalSupply := 1000 }

/-- Snapshot pinned at block `99` while proposal `1` ends at block `100`. -/
def exMismatch : ChainState :=
  { exDirect with blockNumber := 99 }

/-- Snapshot in which no proposal exists. -/
def exMissing : ChainState :=
  { exDirect with proposalExists := fun _ => false }

/-- Snapshot whose resolved voting-token address is the zero sentinel. -/
def exZeroToken : ChainState :=
  { exDirect with votingToken := 0 }

/-- Claim C10: every journal the guest commits has `voted = true`; the
`assert!(voted)` precedes the journal construction, so no journal with
`voted = false` exists. -/
theorem journal_voted_always_true :
    ∀ (s : ChainState) (pid : Nat) (c pc : Address) (j : Journal),
      (guestRun s pid c pc).2 = Except.ok j → j.voted = true := by
  intro s pid c pc j h
  unfold guestRun at h
  split_ifs at h
  all_goals simp_all
  all_goals (subst h; rfl)

/-- Witness for C10 at the concrete direct-vote snapshot. -/
theorem journal_voted_always_true_witness :
    (exDirect.votedAt 1 5 = 50) ∧
    ({ commitment := 11, proposalId := 1, proposalEnd := 100, voted := true,
       delegate := 0, claimant := 5, votingPower := 40, totalSupply := 1000,
       votingToken := 7, governance := 9 } : Journal).voted = true :=
  ⟨rfl, journal_voted_always_true exDirect 1 5 9 _ rfl⟩

/-- Claim C3: with an existing proposal, whenever the proposal's end block
differs from the snapshot's block number the guest fails with
`BlockMismatch`, whatever the vote and delegation state; and every
committed journal has `proposalEnd` equal to the snapshot block number. -/
theorem blockMismatch_pins_journal :
    (∀ (s : ChainState) (pid : Nat) (c pc : Address),
        s.proposalExists pid = true →
        s.proposalEndBlock pid ≠ s.blockNumber →
        (guestRun s pid c pc).2 = Except.error RError.BlockMismatch) ∧
    (∀ (s : ChainState) (pid : Nat) (c pc : Address) (j : Journal),
        (guestRun s pid c pc).2 = Except.ok j →
        j.proposalEnd = s.blockNumber) := by
  constructor
  · intro s pid c pc hex hne
    simp [guestRun, hex, hne]
  · intro s pid c pc j h
    unfold guestRun at h
    split_ifs at h
    all_goals simp_all
    all_goals (subst h; simp_all)

/-- Witness for C3: at the block-99 snapshot the guest fails with
`BlockMismatch`, and the committed journal of the direct-vote snapshot pins
block 100. -/
theorem blockMismatch_pins_journal_witness :
    (guestRun exMismatch 1 5 9).2 = Except.error RError.BlockMismatch ∧
    ({ commitment := 11, proposalId := 1, proposalEnd := 100, voted := true,
       delegate := 0, claimant := 5, votingPower := 40, totalSupply := 1000,
       votingToken := 7, governance := 9 } : Journal).proposalEnd =
      exDirect.blockNumber :=
  ⟨blockMismatch_pins_journal.1 exMismatch 1 5 9 (by decide) (by decide),
   blockMismatch_pins_journal.2 exDirect 1 5 9 _ rfl⟩

/-- Claim C4: a journal is committed only when every check has succeeded —
the proposal exists, the end block equals the snapshot block, the voting
token is non-zero, and the claimant is eligible (`voted = true`);
contrapositively, on any failing run no journal is emitted. -/
theorem journal_only_after_all_checks :
    ∀ (s : ChainState) (pid : Nat) (c pc : Address) (j : Journal),
      (guestRun s pid c pc).2 = Except.ok j →
        s.proposalExists pid = true ∧
        s.proposalEndBlock pid = s.blockNumber ∧
        s.votingToken ≠ 0 ∧
        j.voted = true := by
  intro s pid c pc j h
  unfold guestRun at h
  split_ifs at h
  all_goals simp_all
  all_goals (subst h; simp_all)

/-- Witness for C4 at the concrete direct-vote snapshot. -/
theorem journal_only_after_all_checks_witness :
    exDirect.proposalExists 1 = true ∧
    exDirect.proposalEndBlock 1 = exDirect.blockNumber ∧
    exDirect.votingToken ≠ 0 ∧
    ({ commitment := 11, proposalId := 1, proposalEnd := 100, voted := true,
       delegate := 0, claimant := 5, votingPower := 40, totalSupply := 1000,
       votingToken := 7, governance := 9 } : Journal).voted = true :=
  journal_only_after_all_checks exDirect 1 5 9 _ rfl

/-- Claim C6: in every committed journal, `votingPower` is the claimant's
own balance and `totalSupply` the token's total supply, and the two reads
are issued (in that order) as the final external calls of the run — after
eligibility is settled — whether eligibility came from a direct or a
delegated vote. -/
theorem votingPower_totalSupply_from_claimant :
    ∀ (s : ChainState) (pid : Nat) (c pc : Address) (j : Journal),
      (guestRun s pid c pc).2 = Except.ok j →
        j.votingPower = s.balanceOf c ∧
        j.totalSupply = s.totalSupply ∧
        ∃ t, (guestRun s pid c pc).1 =
          t ++ [ECall.balanceOf s.votingToken c,
                ECall.totalSupply s.votingToken] := by
  intro s pid c pc j h
  unfold guestRun at h ⊢
  split_ifs at h ⊢
  all_goals simp_all
  · subst h
    refine ⟨rfl, rfl,
      [ECall.proposalExists pc pid, ECall.proposalEndBlock pc pid,
       ECall.votingToken pc, ECall.votedAt pc pid c], rfl⟩
  · subst h
    refine ⟨rfl, rfl,
      [ECall.proposalExists pc pid, ECall.proposalEndBlock pc pid,
       ECall.votingToken pc, ECall.votedAt pc pid c,
       ECall.delegates s.votingToken c,
       ECall.votedAt pc pid (s.delegates c)], rfl⟩

/-- Witness for C6 at the concrete delegated-vote snapshot. -/
theorem votingPower_totalSupply_from_claimant_witness :
    ({ commitment := 11, proposalId := 1, proposalEnd := 100, voted := true,
       delegate := 3, claimant := 5, votingPower := 40, totalSupply := 1000,
       votingToken := 7, governance := 9 } : Journal).votingPower =
        exDelegated.balanceOf 5 ∧
    ({ commitment := 11, proposalId := 1, proposalEnd := 100, voted := true,
       delegate := 3, claimant := 5, votingPower := 40, totalSupply := 1000,
       votingToken := 7, governance := 9 } : Journal).totalSupply =
        exDelegated.totalSupply ∧
    ∃ t, (guestRun exDelegated 1 5 9).1 =
      t ++ [ECall.balanceOf exDelegated.votingToken 5,
            ECall.totalSupply exDelegated.votingToken] :=
  votingPower_totalSupply_from_claimant exDelegated 1 5 9 _ rfl

/-- Claim C7: when the pre-checks pass, the claimant did not vote directly
and the resolved delegate is the zero sentinel, the guest stops with
`NotEligible` and its complete call sequence ends at the `delegates` read —
no delegate vote-record read, no balance read and no supply read follow. -/
theorem zero_delegate_stops_resolution :
    ∀ (s : ChainState) (pid : Nat) (c pc : Address),
      s.proposalExists pid = true →
      s.proposalEndBlock pid = s.blockNumber →
      s.votingToken ≠ 0 →
      ¬ (0 < s.votedAt pid c ∧ s.votedAt pid c < s.blockNumber) →
      s.delegates c = 0 →
      guestRun s pid c pc =
        ([ECall.proposalExists pc pid, ECall.proposalEndBlock pc pid,
          ECall.votingToken pc, ECall.votedAt pc pid c,
          ECall.delegates s.votingToken c],
         Except.error RError.NotEligible) := by
  intro s pid c pc hex hpe hvt hnv hd
  simp [guestRun, hex, hpe, hvt, hnv, hd]

/-- Witness for C7 at the no-vote, no-delegation snapshot. -/
theorem zero_delegate_stops_resolution_witness :
    guestRun exNoDelegate 1 5 9 =
      ([ECall.proposalExists 9 1, ECall.proposalEndBlock 9 1,
        ECall.votingToken 9, ECall.votedAt 9 1 5, ECall.delegates 7 5],
       Except.error RError.NotEligible) :=
  zero_delegate_stops_resolution exNoDelegate 1 5 9 (by decide) (by decide)
    (by decide) (by decide) (by decide)

/-- Claim C8: the guest's checks run in order, each failing with its typed
error before any later read is issued: an absent proposal fails
`ProposalNotFound` after only the existence read; an existing proposal with
a mismatched end block fails `BlockMismatch` after only the existence and
end-block reads; a zero voting token then fails `InvalidVotingToken` after
only the three proposal reads. -/
theorem check_order_and_typed_errors :
    (∀ (s : ChainState) (pid : Nat) (c pc : Address),
        ¬ s.proposalExists pid = true →
        guestRun s pid c pc =
          ([ECall.proposalExists pc pid],
           Except.error RError.ProposalNotFound)) ∧
    (∀ (s : ChainState) (pid : Nat) (c pc : Address),
        s.proposalExists pid = true →
        s.proposalEndBlock pid ≠ s.blockNumber →
        guestRun s pid c pc =
          ([ECall.proposalExists pc pid, ECall.proposalEndBlock pc pid],
           Except.error RError.BlockMismatch)) ∧
    (∀ (s : ChainState) (pid : Nat) (c pc : Address),
        s.proposalExists pid = true →
        s.proposalEndBlock pid = s.blockNumber →
        s.votingToken = 0 →
        guestRun s pid c pc =
          ([ECall.proposalExists pc pid, ECall.proposalEndBlock pc pid,
            ECall.votingToken pc],
           Except.error RError.InvalidVotingToken)) := by
  refine ⟨?_, ?_, ?_⟩
  · intro s pid c pc hex
    simp [guestRun, hex]
  · intro s pid c pc hex hne
    simp [guestRun, hex, hne]
  · intro s pid c pc hex hpe hvt
    simp [guestRun, hex, hpe, hvt]

/-- Witness for C8: the three failing snapshots produce exactly the three
typed errors with the three truncated call sequences. -/
theorem check_order_and_typed_errors_witness :
    guestRun exMissing 1 5 9 =
      ([ECall.proposalExists 9 1], Except.error RError.ProposalNotFound) ∧
    guestRun exMismatch 1 5 9 =
      ([ECall.proposalExists 9 1, ECall.proposalEndBlock 9 1],
       Except.error RError.BlockMismatch) ∧
    guestRun exZeroToken 1 5 9 =
      ([ECall.proposalExists 9 1, ECall.proposalEndBlock 9 1,
        ECall.votingToken 9],
       Except.error RError.InvalidVotingToken) :=
  ⟨check_order_and_typed_errors.1 exMissing 1 5 9 (by decide),
   check_order_and_typed_errors.2.1 exMismatch 1 5 9 (by decide) (by decide),
   check_order_and_typed_errors.2.2 exZeroToken 1 5 9 (by decide) (by decide)
     (by decide)⟩

/-- Claim C1: when the guest gets through the proposal, block and token
checks, the run commits a journal with `voted = true` exactly when the
claimant's own vote block lies strictly between `0` and the proposal end
block, or the registry delegate is non-zero and that delegate's vote block
lies strictly between the same bounds; otherwise the run fails
`NotEligible`. -/
theorem voted_iff_direct_or_delegate :
    ∀ (s : ChainState) (pid : Nat) (c pc : Address),
      s.proposalExists pid = true →
      s.proposalEndBlock pid = s.blockNumber →
      s.votingToken ≠ 0 →
      ((∃ j, (guestRun s pid c pc).2 = Except.ok j ∧ j.voted = true) ↔
        ((0 < s.votedAt pid c ∧ s.votedAt pid c < s.proposalEndBlock pid) ∨
         (s.delegates c ≠ 0 ∧
          0 < s.votedAt pid (s.delegates c) ∧
          s.votedAt pid (s.delegates c) < s.proposalEndBlock pid))) ∧
      (¬ ((0 < s.votedAt pid c ∧ s.votedAt pid c < s.proposalEndBlock pid) ∨
          (s.delegates c ≠ 0 ∧
           0 < s.votedAt pid (s.delegates c) ∧
           s.votedAt pid (s.delegates c) < s.proposalEndBlock pid)) →
        (guestRun s pid c pc).2 = Except.error RError.NotEligible) := by
  intro s pid c pc hex hpe hvt
  rw [hpe]
  by_cases hdv : 0 < s.votedAt pid c ∧ s.votedAt pid c < s.blockNumber
  · constructor
    · simp [guestRun, hex, hpe, hvt, hdv]
    · intro hno
      exact absurd (Or.inl hdv) hno
  · by_cases hd : s.delegates c = 0
    · constructor
      · simp [guestRun, hex, hpe, hvt, hdv, hd]
      · intro _
        simp [guestRun, hex, hpe, hvt, hdv, hd]
    · by_cases hdb : 0 < s.votedAt pid (s.delegates c) ∧
          s.votedAt pid (s.delegates c) < s.blockNumber
      · constructor
        · simp [guestRun, hex, hpe, hvt, hdv, hd, hdb]
        · intro hno
          exact absurd (Or.inr ⟨hd, hdb⟩) hno
      · constructor
        · simp [guestRun, hex, hpe, hvt, hdv, hd, hdb]
        · intro _
          simp [guestRun, hex, hpe, hvt, hdv, hd, hdb]

/-- Witness for C1 at the delegated-vote snapshot: the claimant never voted
but delegated to address `3`, who voted at block `90 < 100`. -/
theorem voted_iff_direct_or_delegate_witness :
    ((∃ j, (guestRun exDelegated 1 5 9).2 = Except.ok j ∧ j.voted = true) ↔
      ((0 < exDelegated.votedAt 1 5 ∧
        exDelegated.votedAt 1 5 < exDelegated.proposalEndBlock 1) ∨
       (exDelegated.delegates 5 ≠ 0 ∧
        0 < exDelegated.votedAt 1 (exDelegated.delegates 5) ∧
        exDelegated.votedAt 1 (exDelegated.delegates 5) <
          exDelegated.proposalEndBlock 1))) ∧
    (¬ ((0 < exDelegated.votedAt 1 5 ∧
         exDelegated.votedAt 1 5 < exDelegated.proposalEndBlock 1) ∨
        (exDelegated.delegates 5 ≠ 0 ∧
         0 < exDelegated.votedAt 1 (exDelegated.delegates 5) ∧
         exDelegated.votedAt 1 (exDelegated.delegates 5) <
           exDelegated.proposalEndBlock 1)) →
      (guestRun exDelegated 1 5 9).2 = Except.error RError.NotEligible) :=
  voted_iff_direct_or_delegate exDelegated 1 5 9 (by decide) (by decide)
    (by decide)

/-- Counterexample to claim C5 as stated: at the direct-vote snapshot the
claimant has an active delegation to address `3`, yet the committed
journal's `delegate` field is the zero sentinel — the field is not
equivalent to "no active delegation exists", because the lookup is skipped
on a direct vote. -/
theorem delegate_zero_despite_active_delegation :
    (guestRun exDirect 1 5 9).2 =
      Except.ok
        { commitment := 11, proposalId := 1, proposalEnd := 100,
          voted := true, delegate := 0, claimant := 5, votingPower := 40,
          totalSupply := 1000, votingToken := 7, governance := 9 } ∧
    exDirect.delegates 5 = 3 ∧ (3 : Address) ≠ 0 :=
  ⟨rfl, rfl, by decide⟩

/-- Claim C5 as amended: the delegate lookup is issued exactly when the
pre-checks pass and the direct-vote check fails; in every committed
journal, the `delegate` field is zero when the claimant voted directly
(whatever the registry holds), and otherwise equals the claimant's
registry delegate and is non-zero. -/
theorem delegate_field_characterization :
    (∀ (s : ChainState) (pid : Nat) (c pc : Address),
        (ECall.delegates s.votingToken c ∈ (guestRun s pid c pc).1 ↔
          (s.proposalExists pid = true ∧
           s.proposalEndBlock pid = s.blockNumber ∧
           s.votingToken ≠ 0 ∧
           ¬ (0 < s.votedAt pid c ∧ s.votedAt pid c < s.blockNumber)))) ∧
    (∀ (s : ChainState) (pid : Nat) (c pc : Address) (j : Journal),
        (guestRun s pid c pc).2 = Except.ok j →
          ((0 < s.votedAt pid c ∧ s.votedAt pid c < s.blockNumber) →
            j.delegate = 0) ∧
          (¬ (0 < s.votedAt pid c ∧ s.votedAt pid c < s.blockNumber) →
            j.delegate = s.delegates c ∧ j.delegate ≠ 0)) := by
  constructor
  · intro s pid c pc
    unfold guestRun
    split_ifs with h1 h2 h3 h4 h5 h6
    all_goals simp_all
  · intro s pid c pc j h
    unfold guestRun at h
    split_ifs at h with h1 h2 h3 h4 h5 h6
    all_goals simp_all
    · subst h
      rfl
    · subst h
      exact ⟨rfl, h5⟩

/-- Witness for C5 as amended, at the delegated-vote snapshot: the
delegates read is issued, and the journal's delegate is the registry
delegate `3`. -/
theorem delegate_field_characterization_witness :
    (ECall.delegates exDelegated.votingToken 5 ∈
        (guestRun exDelegated 1 5 9).1 ↔
      (exDelegated.proposalExists 1 = true ∧
       exDelegated.proposalEndBlock 1 = exDelegated.blockNumber ∧
       exDelegated.votingToken ≠ 0 ∧
       ¬ (0 < exDelegated.votedAt 1 5 ∧
          exDelegated.votedAt 1 5 < exDelegated.blockNumber))) ∧
    (((0 < exDelegated.votedAt 1 5 ∧
       exDelegated.votedAt 1 5 < exDelegated.blockNumber) →
        ({ commitment := 11, proposalId := 1, proposalEnd := 100,
           voted := true, delegate := 3, claimant := 5, votingPower := 40,
           totalSupply := 1000, votingToken := 7,
           governance := 9 } : Journal).delegate = 0) ∧
     (¬ (0 < exDelegated.votedAt 1 5 ∧
         exDelegated.votedAt 1 5 < exDelegated.blockNumber) →
        ({ commitment := 11, proposalId := 1, proposalEnd := 100,
           voted := true, delegate := 3, claimant := 5, votingPower := 40,
           totalSupply := 1000, votingToken := 7,
           governance := 9 } : Journal).delegate = exDelegated.delegates 5 ∧
        ({ commitment := 11, proposalId := 1, proposalEnd := 100,
           voted := true, delegate := 3, claimant := 5, votingPower := 40,
           totalSupply := 1000, votingToken := 7,
           governance := 9 } : Journal).delegate ≠ 0)) :=
  ⟨delegate_field_characterization.1 exDelegated 1 5 9,
   delegate_field_characterization.2 exDelegated 1 5 9 _ rfl⟩

/-- Counterexample to claim C9 as stated: the guest's replay does issue a
distinct `totalSupply()` call — its successful run at the direct-vote
snapshot ends with that call, which differs from every `balanceOf` call,
and the journal's `totalSupply` is the token's supply (`1000`), not the
claimant's balance (`40`). -/
theorem guest_issues_distinct_totalSupply :
    (guestRun exDirect 1 5 9).1 =
      [ECall.proposalExists 9 1, ECall.proposalEndBlock 9 1,
       ECall.votingToken 9, ECall.votedAt 9 1 5, ECall.balanceOf 7 5,
       ECall.totalSupply 7] ∧
    ECall.totalSupply 7 ≠ ECall.balanceOf 7 5 ∧
    (guestRun exDirect 1 5 9).2 =
      Except.ok
        { commitment := 11, proposalId := 1, proposalEnd := 100,
          voted := true, delegate := 0, claimant := 5, votingPower := 40,
          totalSupply := 1000, votingToken := 7, governance := 9 } ∧
    exDirect.balanceOf 5 ≠ exDirect.totalSupply :=
  ⟨rfl, by decide, rfl, by decide⟩

/-- Claim C9 as amended: the host recording pass's total-supply read
reuses the balance-lookup call — every completed host preflight ends with
two `balanceOf(claimant)` calls on the voting token — while the guest's
replay issues a distinct `totalSupply()` call after its `balanceOf`. -/
theorem totalSupply_read_split :
    (∀ (s : ChainState) (pid : Nat) (c pc : Address),
        (hostRun s pid c pc).2 = true →
        ∃ t, (hostRun s pid c pc).1 =
          t ++ [ECall.balanceOf s.votingToken c,
                ECall.balanceOf s.votingToken c]) ∧
    (∀ (s : ChainState) (pid : Nat) (c pc : Address) (j : Journal),
        (guestRun s pid c pc).2 = Except.ok j →
        ∃ t, (guestRun s pid c pc).1 =
          t ++ [ECall.balanceOf s.votingToken c,
                ECall.totalSupply s.votingToken]) := by
  constructor
  · intro s pid c pc h
    unfold hostRun at h ⊢
    split_ifs at h ⊢
    · exact ⟨[ECall.proposalExists pc pid, ECall.proposalEndBlock pc pid,
        ECall.votingToken pc, ECall.votedAt pc pid c], rfl⟩
    · exact ⟨[ECall.proposalExists pc pid, ECall.proposalEndBlock pc pid,
        ECall.votingToken pc, ECall.votedAt pc pid c,
        ECall.delegates s.votingToken c], rfl⟩
    · exact ⟨[ECall.proposalExists pc pid, ECall.proposalEndBlock pc pid,
        ECall.votingToken pc, ECall.votedAt pc pid c,
        ECall.delegates s.votingToken c,
        ECall.votedAt pc pid (s.delegates c)], rfl⟩
  · intro s pid c pc j h
    exact (votingPower_totalSupply_from_claimant s pid c pc j h).2.2

/-- Witness for C9 as amended, at the direct-vote snapshot: the host trace
ends with the doubled `balanceOf(claimant)`, the guest trace with
`balanceOf(claimant)` then `totalSupply()`. -/
theorem totalSupply_read_split_witness :
    (∃ t, (hostRun exDirect 1 5 9).1 =
      t ++ [ECall.balanceOf exDirect.votingToken 5,
            ECall.balanceOf exDirect.votingToken 5]) ∧
    (∃ t, (guestRun exDirect 1 5 9).1 =
      t ++ [ECall.balanceOf exDirect.votingToken 5,
            ECall.totalSupply exDirect.votingToken]) :=
  ⟨totalSupply_read_split.1 exDirect 1 5 9 rfl,
   totalSupply_read_split.2 exDirect 1 5 9 _ rfl⟩

/-- Claim C2 fails on the code (the host comments the totalSupply slip
itself): the recording and replay call sequences diverge. At the
direct-vote snapshot both passes complete, yet the host's recorded
sequence ends in a second `balanceOf(claimant)` where the replay needs
`totalSupply()`; at the boundary snapshot (vote recorded exactly at the
end block) the host treats the claimant as having voted directly and skips
the delegation reads that the replay issues. -/
theorem host_guest_trace_divergence :
    (hostRun exDirect 1 5 9).2 = true ∧
    (guestRun exDirect 1 5 9).2 =
      Except.ok
        { commitment := 11, proposalId := 1, proposalEnd := 100,
          voted := true, delegate := 0, claimant := 5, votingPower := 40,
          totalSupply := 1000, votingToken := 7, governance := 9 } ∧
    (hostRun exDirect 1 5 9).1 ≠ (guestRun exDirect 1 5 9).1 ∧
    (hostRun exBoundary 1 5 9).2 = true ∧
    (guestRun exBoundary 1 5 9).2 =
      Except.ok
        { commitment := 11, proposalId := 1, proposalEnd := 100,
          voted := true, delegate := 3, claimant := 5, votingPower := 40,
          totalSupply := 1000, votingToken := 7, governance := 9 } ∧
    (hostRun exBoundary 1 5 9).1 ≠ (guestRun exBoundary 1 5 9).1 :=
  ⟨rfl, rfl, by decide, rfl, rfl, by decide⟩

end DelegatedRewards
